import Mathlib

/-!
Verification of the location-tracking core of the CaravanMobile client
(`src/services/location/locationService.ts`), shallowly embedded in Lean.

The embedding follows the TypeScript source:
* `LocationData`, `ServiceState` mirror the service's data and mutable fields
  (`lastSentLocation`, `updateQueue`, `isFlushing`);
* `flushLoop`/`flushQueue` mirror the `while` loop of `flushQueue` (sequential
  drain with a 404 skip, transient-failure stop, and the `slice(-5)` overflow
  trim), instrumented with a trace of the sink calls it performs;
* `processLocation`, `handleLocationUpdate`, `sendLocationNow`,
  `requestPermissions` mirror the corresponding methods;
* `calculateDistance` is the haversine formula of the source over real
  numbers (coordinates are rationals, as every IEEE double is rational);
* a small event machine (`SysState`, `sysStep`) models the cooperative
  interleaving of the async flush loop with concurrently arriving samples,
  for the reentrancy-guard properties.
-/

namespace Caravan

/-- A raw position sample (the `LocationData` record of the source):
latitude, longitude, and a nullable accuracy radius in meters. -/
structure LocationData where
  latitude : ℚ
  longitude : ℚ
  accuracy : Option ℚ
deriving DecidableEq

/-- The body handed to `ApiClient.updateLocation`: all three fields are plain
numbers (`accuracy : number`, never null), which the client posts unchanged to
`/api/location/update`. -/
structure LocationPayload where
  latitude : ℚ
  longitude : ℚ
  accuracy : ℚ
deriving DecidableEq

/-- Outcome of one remote-sink call (`apiClient.updateLocation`): success, or
a thrown error carrying an optional HTTP status (`error.response?.status`). -/
inductive SinkResult where
  | ok : SinkResult
  | err : Option Nat → SinkResult
deriving DecidableEq

/-- JavaScript `x || 0` on a nullable number: `null` and `0` are falsy, so
both give `0`; every other number is returned unchanged. -/
def jsOrZero : Option ℚ → ℚ
  | none => 0
  | some x => if x = 0 then 0 else x

/-- The argument `flushQueue` builds for `apiClient.updateLocation`:
latitude and longitude passed through, `accuracy := location.accuracy || 0`. -/
def toPayload (location : LocationData) : LocationPayload :=
  { latitude := location.latitude
    longitude := location.longitude
    accuracy := jsOrZero location.accuracy }

/-- One delivery attempt observed during a flush: the queued sample, the
payload actually passed to the sink for it, and the sink's result. -/
structure SinkCall where
  sample : LocationData
  payload : LocationPayload
  result : SinkResult
deriving DecidableEq

/-- The mutable fields of the `LocationService` singleton that the queueing
logic touches: `lastSentLocation`, `updateQueue`, `isFlushing`. -/
structure ServiceState where
  lastSentLocation : Option LocationData
  updateQueue : List LocationData
  isFlushing : Bool
deriving DecidableEq

/-- The overflow guard in `flushQueue`'s catch branch:
`if (updateQueue.length > 10) updateQueue = updateQueue.slice(-5)` —
keep only the 5 most recent entries, discarding the oldest. -/
def trimQueue (q : List LocationData) : List LocationData :=
  if q.length > 10 then q.drop (q.length - 5) else q

/-- Result of running the `while` loop of `flushQueue` to completion:
the remaining queue, the final `lastSentLocation`, and the trace of sink
calls in the order they were made. -/
structure FlushOut where
  queue : List LocationData
  last : Option LocationData
  trace : List SinkCall
deriving DecidableEq

/-- The `while (updateQueue.length > 0)` loop of `flushQueue`: peek the head,
call the sink with `{latitude, longitude, accuracy: accuracy || 0}`; on
success record the sample in `lastSentLocation` and shift; on a 404 error
shift and continue; on any other error trim the queue if it exceeds 10
entries and stop. -/
def flushLoop (sink : LocationPayload → SinkResult) :
    List LocationData → Option LocationData → FlushOut
  | [], last => { queue := [], last := last, trace := [] }
  | location :: rest, last =>
    match sink (toPayload location) with
    | SinkResult.ok =>
      let r := flushLoop sink rest (some location)
      { queue := r.queue
        last := r.last
        trace := { sample := location, payload := toPayload location,
                   result := SinkResult.ok } :: r.trace }
    | SinkResult.err s =>
      if s = some 404 then
        let r := flushLoop sink rest last
        { queue := r.queue
          last := r.last
          trace := { sample := location, payload := toPayload location,
                     result := SinkResult.err s } :: r.trace }
      else
        { queue := trimQueue (location :: rest)
          last := last
          trace := [{ sample := location, payload := toPayload location,
                      result := SinkResult.err s }] }

/-- `flushQueue` of the source: return immediately if `isFlushing` is set,
otherwise set the flag, drain the queue via the loop, and clear the flag in
the `finally` block. Returns the new state and the trace of sink calls. -/
def flushQueue (sink : LocationPayload → SinkResult) (st : ServiceState) :
    ServiceState × List SinkCall :=
  if st.isFlushing then (st, [])
  else
    let r := flushLoop sink st.updateQueue st.lastSentLocation
    ({ lastSentLocation := r.last, updateQueue := r.queue, isFlushing := false },
     r.trace)

/-- The synchronous prefix of `sendLocationNow`, before the flush:
`lastSentLocation = location; updateQueue.unshift(location)`. -/
def sendLocationNowPre (st : ServiceState) (location : LocationData) :
    ServiceState :=
  { st with lastSentLocation := some location
            updateQueue := location :: st.updateQueue }

/-- `sendLocationNow` of the source: unconditionally record the sample as
`lastSentLocation`, put it at the front of the queue, then flush. -/
def sendLocationNow (sink : LocationPayload → SinkResult) (st : ServiceState)
    (location : LocationData) : ServiceState × List SinkCall :=
  flushQueue sink (sendLocationNowPre st location)

/-- Status with which a permission request resolves (expo-location returns
a string; the source only compares it against the literal granted). -/
inductive PermStatus where
  | granted
  | denied
  | undetermined
deriving DecidableEq

/-- Outcome of awaiting a permission request: the promise either rejected
(threw) or resolved with a status. -/
inductive PermOutcome where
  | threw : PermOutcome
  | ok : PermStatus → PermOutcome
deriving DecidableEq

/-- Which permission primitive of the position source was invoked. -/
inductive PermRequest where
  | foreground
  | background
deriving DecidableEq

/-- `requestPermissions` of the source, as a function of the outcomes of the
two awaited requests. It returns the boolean result together with the list of
permission requests actually made (in order), and passes the service state
through untouched (the method reads and writes none of the queue fields).
Control flow of the source: request foreground; if its status is not
granted, return false; otherwise request background (the status is only
logged), return true; any thrown error is caught and yields false. -/
def requestPermissions (st : ServiceState) (fg bg : PermOutcome) :
    (Bool × List PermRequest) × ServiceState :=
  match fg with
  | PermOutcome.threw => ((false, [PermRequest.foreground]), st)
  | PermOutcome.ok s =>
    if s ≠ PermStatus.granted then
      ((false, [PermRequest.foreground]), st)
    else
      match bg with
      | PermOutcome.threw =>
        ((false, [PermRequest.foreground, PermRequest.background]), st)
      | PermOutcome.ok _ =>
        ((true, [PermRequest.foreground, PermRequest.background]), st)

/-- The samples successfully delivered in a trace, in delivery order. -/
def okDeliveries (trace : List SinkCall) : List LocationData :=
  (trace.filter (fun c => c.result == SinkResult.ok)).map SinkCall.sample

section DistanceFilter

open Classical

/-- `MIN_DISTANCE_METERS = 30` of the source. -/
def MIN_DISTANCE_METERS : ℚ := 30

/-- `ACCURACY_THRESHOLD = 5` of the source (its comment says 50 m but the
constant is 5). -/
def ACCURACY_THRESHOLD : ℚ := 5

/-- Degrees to radians, `deg * Math.PI / 180`. -/
noncomputable def toRadians (deg : ℚ) : ℝ :=
  (deg : ℝ) * Real.pi / 180

/-- `Math.atan2 y x`: the angle of the point `(x, y)`, in `(-π, π]`. -/
noncomputable def atan2 (y x : ℝ) : ℝ :=
  if 0 < x then Real.arctan (y / x)
  else if x < 0 ∧ 0 ≤ y then Real.arctan (y / x) + Real.pi
  else if x < 0 ∧ y < 0 then Real.arctan (y / x) - Real.pi
  else if x = 0 ∧ 0 < y then Real.pi / 2
  else if x = 0 ∧ y < 0 then -(Real.pi / 2)
  else 0

/-- `calculateDistance` of the source: haversine great-circle distance in
meters between two coordinates, with Earth radius `R = 6371e3`. -/
noncomputable def calculateDistance (lat1 lon1 lat2 lon2 : ℚ) : ℝ :=
  let R : ℝ := 6371000
  let phi1 := toRadians lat1
  let phi2 := toRadians lat2
  let dphi := toRadians (lat2 - lat1)
  let dlam := toRadians (lon2 - lon1)
  let a := Real.sin (dphi / 2) * Real.sin (dphi / 2) +
    Real.cos phi1 * Real.cos phi2 *
    Real.sin (dlam / 2) * Real.sin (dlam / 2)
  let c := 2 * atan2 (Real.sqrt a) (Real.sqrt (1 - a))
  R * c

/-- `hasLocationChangedSignificantly` of the source: true when there is no
`lastSentLocation`, otherwise when the haversine distance from it to the new
sample is at least `MIN_DISTANCE_METERS`. -/
def hasLocationChangedSignificantly (st : ServiceState)
    (newLocation : LocationData) : Prop :=
  match st.lastSentLocation with
  | none => True
  | some last =>
    ((MIN_DISTANCE_METERS : ℚ) : ℝ) ≤
      calculateDistance last.latitude last.longitude
        newLocation.latitude newLocation.longitude

/-- `processLocation` of the source: if a `lastSentLocation` exists and the
sample has not moved significantly, return without touching anything;
otherwise push the sample onto the queue and flush. -/
noncomputable def processLocation (sink : LocationPayload → SinkResult)
    (st : ServiceState) (location : LocationData) :
    ServiceState × List SinkCall :=
  if st.lastSentLocation.isSome ∧ ¬ hasLocationChangedSignificantly st location
  then (st, [])
  else flushQueue sink { st with updateQueue := st.updateQueue ++ [location] }

/-- `handleLocationUpdate` of the source (the subscription callback): drop the
sample when `location.coords.accuracy && accuracy > ACCURACY_THRESHOLD`
(JavaScript truthiness: a null or zero accuracy skips the check), otherwise
forward to `processLocation`. -/
noncomputable def handleLocationUpdate (sink : LocationPayload → SinkResult)
    (st : ServiceState) (location : LocationData) :
    ServiceState × List SinkCall :=
  match location.accuracy with
  | some a =>
    if a ≠ 0 ∧ ACCURACY_THRESHOLD < a then (st, [])
    else processLocation sink st location
  | none => processLocation sink st location

/-- The initial-fetch path of `startTracking`: the first position obtained by
`getCurrentPositionAsync` is passed directly to `processLocation` (it does not
go through `handleLocationUpdate`, so no accuracy check is applied to it). -/
noncomputable def startTrackingInitialSample
    (sink : LocationPayload → SinkResult) (st : ServiceState)
    (location : LocationData) : ServiceState × List SinkCall :=
  processLocation sink st location

/-- The accept condition exactly as the specification states it (for
comparison with the guard of `processLocation`): accept when
`lastAcceptedSample` is null, or when the haversine distance from it to the
new sample is at least 30 meters. -/
def specAcceptsSample (last : Option LocationData) (s : LocationData) : Prop :=
  last = none ∨
    ∃ prev, last = some prev ∧
      (30 : ℝ) ≤ calculateDistance prev.latitude prev.longitude
        s.latitude s.longitude

end DistanceFilter

/-- Program counter of the asynchronous flush loop: no loop active, at the
top of the `while` (about to test queue emptiness), or suspended awaiting the
sink's response for the head sample it read. -/
inductive FlushTask where
  | idle
  | loopTop
  | awaitingSend : LocationData → FlushTask
deriving DecidableEq

/-- State of the service together with the flush loop's program counter, for
reasoning about interleavings of the async flush with new samples. -/
structure SysState where
  lastSentLocation : Option LocationData
  updateQueue : List LocationData
  isFlushing : Bool
  task : FlushTask
deriving DecidableEq

/-- Events of the interleaved execution: a call to `flushQueue`; the loop
advancing to its next suspension point; the sink responding to the awaited
call; a sample accepted by `processLocation` being appended mid-flight; the
synchronous prefix of `sendLocationNow`; an unexpected exception unwinding
the loop through its `finally` block. -/
inductive SysEvent where
  | invokeFlush
  | runLoop
  | sinkRespond : SinkResult → SysEvent
  | enqueue : LocationData → SysEvent
  | sendNowPre : LocationData → SysEvent
  | abortFlush
deriving DecidableEq

/-- One step of the interleaved execution. Returns the next state and the
list of sink requests issued during the step (the delivery attempts).
Each branch mirrors a segment of the source between suspension points:
`invokeFlush` is the guarded entry of `flushQueue`; `runLoop` is the
`while` test plus the read of `updateQueue[0]` and the start of the awaited
sink call; `sinkRespond` is the resumption after that call (success,
404 skip, or trim-and-stop); `enqueue` is `updateQueue.push` from
`processLocation`; `sendNowPre` is the synchronous prefix of
`sendLocationNow`; `abortFlush` is an exception leaving the loop through
the `finally` block, which still clears `isFlushing`. -/
def sysStep (st : SysState) : SysEvent → SysState × List LocationData
  | SysEvent.invokeFlush =>
    if st.isFlushing then (st, [])
    else ({ st with isFlushing := true, task := FlushTask.loopTop }, [])
  | SysEvent.runLoop =>
    match st.task with
    | FlushTask.loopTop =>
      match st.updateQueue with
      | [] => ({ st with task := FlushTask.idle, isFlushing := false }, [])
      | location :: _ =>
        ({ st with task := FlushTask.awaitingSend location }, [location])
    | _ => (st, [])
  | SysEvent.sinkRespond r =>
    match st.task with
    | FlushTask.awaitingSend location =>
      match r with
      | SinkResult.ok =>
        ({ st with lastSentLocation := some location
                   updateQueue := st.updateQueue.tail
                   task := FlushTask.loopTop }, [])
      | SinkResult.err s =>
        if s = some 404 then
          ({ st with updateQueue := st.updateQueue.tail
                     task := FlushTask.loopTop }, [])
        else
          ({ st with updateQueue := trimQueue st.updateQueue
                     task := FlushTask.idle
                     isFlushing := false }, [])
    | _ => (st, [])
  | SysEvent.enqueue location =>
    ({ st with updateQueue := st.updateQueue ++ [location] }, [])
  | SysEvent.sendNowPre location =>
    ({ st with lastSentLocation := some location
               updateQueue := location :: st.updateQueue }, [])
  | SysEvent.abortFlush =>
    match st.task with
    | FlushTask.idle => (st, [])
    | _ => ({ st with task := FlushTask.idle, isFlushing := false }, [])

/-- Run a sequence of events, concatenating the sink requests issued. -/
def sysRun (st : SysState) : List SysEvent → SysState × List LocationData
  | [] => (st, [])
  | ev :: evs =>
    let r := sysStep st ev
    let r2 := sysRun r.1 evs
    (r2.1, r.2 ++ r2.2)

/-- The flush-flag invariant: `isFlushing` is clear exactly when no flush
loop is active. -/
def FlushInv (st : SysState) : Prop :=
  st.isFlushing = false ↔ st.task = FlushTask.idle

instance (st : SysState) : Decidable (FlushInv st) := by
  unfold FlushInv
  infer_instance

/-! ## Helper lemmas -/

theorem okDeliveries_nil : okDeliveries [] = [] := rfl

theorem okDeliveries_cons_ok (s : LocationData) (p : LocationPayload)
    (tr : List SinkCall) :
    okDeliveries ({ sample := s, payload := p, result := SinkResult.ok } :: tr) =
      s :: okDeliveries tr := by
  simp [okDeliveries]

theorem okDeliveries_cons_err (s : LocationData) (p : LocationPayload)
    (e : Option Nat) (tr : List SinkCall) :
    okDeliveries
        ({ sample := s, payload := p, result := SinkResult.err e } :: tr) =
      okDeliveries tr := by
  simp [okDeliveries]

/-- The `lastSentLocation` produced by the flush loop is the last sample it
delivered successfully, or the initial value when nothing was delivered. -/
theorem flushLoop_last_eq (sink : LocationPayload → SinkResult) :
    ∀ (q : List LocationData) (last : Option LocationData),
      (flushLoop sink q last).last =
        (okDeliveries (flushLoop sink q last).trace).foldl
          (fun _ l => some l) last := by
  intro q
  induction q with
  | nil => intro last; simp [flushLoop, okDeliveries]
  | cons loc rest ih =>
    intro last
    cases hs : sink (toPayload loc) with
    | ok =>
      simp only [flushLoop, hs, okDeliveries_cons_ok, List.foldl_cons]
      exact ih (some loc)
    | err s =>
      by_cases h4 : s = some 404
      · simp only [flushLoop, hs, if_pos h4, okDeliveries_cons_err]
        exact ih last
      · simp only [flushLoop, hs, if_neg h4]
        simp [okDeliveries]

/-- Same statement lifted through `flushQueue` (including the reentrant
no-op case, where the trace is empty). -/
theorem flushQueue_last_eq (sink : LocationPayload → SinkResult)
    (st : ServiceState) :
    (flushQueue sink st).1.lastSentLocation =
      (okDeliveries (flushQueue sink st).2).foldl (fun _ l => some l)
        st.lastSentLocation := by
  unfold flushQueue
  by_cases h : st.isFlushing
  · simp [h, okDeliveries]
  · simp only [h, Bool.false_eq_true, if_false]
    exact flushLoop_last_eq sink st.updateQueue st.lastSentLocation

/-- Every sink call recorded by the flush loop carries the payload built by
`toPayload` from a sample of the starting queue. -/
theorem flushLoop_trace_calls (sink : LocationPayload → SinkResult) :
    ∀ (q : List LocationData) (last : Option LocationData) (call : SinkCall),
      call ∈ (flushLoop sink q last).trace →
      call.payload = toPayload call.sample ∧ call.sample ∈ q := by
  intro q
  induction q with
  | nil => intro last call hmem; simp [flushLoop] at hmem
  | cons loc rest ih =>
    intro last call hmem
    cases hs : sink (toPayload loc) with
    | ok =>
      simp only [flushLoop, hs, List.mem_cons] at hmem
      rcases hmem with rfl | hmem
      · exact ⟨rfl, List.mem_cons_self _ _⟩
      · obtain ⟨h1, h2⟩ := ih (some loc) call hmem
        exact ⟨h1, List.mem_cons_of_mem _ h2⟩
    | err s =>
      by_cases h4 : s = some 404
      · simp only [flushLoop, hs, if_pos h4, List.mem_cons] at hmem
        rcases hmem with rfl | hmem
        · exact ⟨rfl, List.mem_cons_self _ _⟩
        · obtain ⟨h1, h2⟩ := ih last call hmem
          exact ⟨h1, List.mem_cons_of_mem _ h2⟩
      · simp only [flushLoop, hs, if_neg h4, List.mem_singleton] at hmem
        subst hmem
        exact ⟨rfl, List.mem_cons_self _ _⟩

/-! ## Claim theorems -/

/-- Claim C4: in a flush run where the sink returns a non-404 failure for the
head sample, the loop stops: the sink is called exactly once (for the head),
the failed sample and everything behind it stay queued in order, except that
a queue longer than 10 entries is trimmed to its 5 most recent entries
(oldest discarded); `lastSentLocation` is unchanged. -/
theorem flushQueue_transient_failure_c4 :
    ∀ (sink : LocationPayload → SinkResult) (last : Option LocationData)
      (location : LocationData) (rest : List LocationData) (s : Option Nat),
      sink (toPayload location) = SinkResult.err s → s ≠ some 404 →
      flushQueue sink ⟨last, location :: rest, false⟩ =
        (⟨last,
          if (location :: rest).length > 10 then
            (location :: rest).drop ((location :: rest).length - 5)
          else location :: rest,
          false⟩,
         [⟨location, toPayload location, SinkResult.err s⟩]) := by
  intro sink last location rest s hs h4
  simp [flushQueue, flushLoop, hs, h4, trimQueue]

/-- Witness for C4: a two-element queue whose head fails with a status-less
network error keeps both entries in order and calls the sink once; a
twelve-element queue in the same situation is trimmed to its last five. -/
theorem flushQueue_transient_failure_c4_witness :
    ((fun _ => SinkResult.err none) (toPayload ⟨1, 1, none⟩) =
        SinkResult.err none ∧
      (none : Option Nat) ≠ some 404 ∧
      flushQueue (fun _ => SinkResult.err none)
          ⟨none, [⟨1, 1, none⟩, ⟨2, 2, none⟩], false⟩ =
        (⟨none,
          if ([⟨1, 1, none⟩, ⟨2, 2, none⟩] : List LocationData).length > 10 then
            ([⟨1, 1, none⟩, ⟨2, 2, none⟩] : List LocationData).drop
              (([⟨1, 1, none⟩, ⟨2, 2, none⟩] : List LocationData).length - 5)
          else [⟨1, 1, none⟩, ⟨2, 2, none⟩],
          false⟩,
         [⟨⟨1, 1, none⟩, toPayload ⟨1, 1, none⟩, SinkResult.err none⟩])) ∧
    flushQueue (fun _ => SinkResult.err (some 500))
        ⟨none,
         [⟨1, 0, none⟩, ⟨2, 0, none⟩, ⟨3, 0, none⟩, ⟨4, 0, none⟩, ⟨5, 0, none⟩,
          ⟨6, 0, none⟩, ⟨7, 0, none⟩, ⟨8, 0, none⟩, ⟨9, 0, none⟩, ⟨10, 0, none⟩,
          ⟨11, 0, none⟩, ⟨12, 0, none⟩], false⟩ =
      (⟨none,
        [⟨8, 0, none⟩, ⟨9, 0, none⟩, ⟨10, 0, none⟩, ⟨11, 0, none⟩,
         ⟨12, 0, none⟩], false⟩,
       [⟨⟨1, 0, none⟩, toPayload ⟨1, 0, none⟩, SinkResult.err (some 500)⟩]) :=
  ⟨⟨rfl, by decide,
    flushQueue_transient_failure_c4 (fun _ => SinkResult.err none) none
      ⟨1, 1, none⟩ [⟨2, 2, none⟩] none rfl (by decide)⟩,
   by
    rw [flushQueue_transient_failure_c4 (fun _ => SinkResult.err (some 500))
      none ⟨1, 0, none⟩ _ (some 500) rfl (by decide)]
    decide⟩

/-- Claim C5: in a flush run where the sink fails with HTTP status 404 for
the head sample, that sample is popped and discarded without retry and the
loop continues; for a queue `[a, b]` with a 404 for `a` and success for `b`,
one flush empties the queue, calls the sink once for each of `a` and `b`,
and leaves `lastSentLocation` at the delivered `b`, not the discarded `a`. -/
theorem flushQueue_notfound_skip_c5 :
    ∀ (sink : LocationPayload → SinkResult) (last : Option LocationData)
      (a b : LocationData),
      sink (toPayload a) = SinkResult.err (some 404) →
      sink (toPayload b) = SinkResult.ok →
      flushQueue sink ⟨last, [a, b], false⟩ =
        (⟨some b, [], false⟩,
         [⟨a, toPayload a, SinkResult.err (some 404)⟩,
          ⟨b, toPayload b, SinkResult.ok⟩]) := by
  intro sink last a b ha hb
  simp [flushQueue, flushLoop, ha, hb]

/-- Witness for C5, with a sink that 404s exactly on the first sample's
payload and succeeds on the second's. -/
theorem flushQueue_notfound_skip_c5_witness :
    ((fun p => if p.latitude = 1 then SinkResult.err (some 404) else
        SinkResult.ok) (toPayload ⟨1, 1, none⟩) = SinkResult.err (some 404)) ∧
    ((fun p => if p.latitude = 1 then SinkResult.err (some 404) else
        SinkResult.ok) (toPayload ⟨2, 2, none⟩) = SinkResult.ok) ∧
    flushQueue
        (fun p => if p.latitude = 1 then SinkResult.err (some 404) else
          SinkResult.ok)
        ⟨none, [⟨1, 1, none⟩, ⟨2, 2, none⟩], false⟩ =
      (⟨some ⟨2, 2, none⟩, [], false⟩,
       [⟨⟨1, 1, none⟩, toPayload ⟨1, 1, none⟩, SinkResult.err (some 404)⟩,
        ⟨⟨2, 2, none⟩, toPayload ⟨2, 2, none⟩, SinkResult.ok⟩]) :=
  ⟨by decide, by decide,
   flushQueue_notfound_skip_c5 _ none ⟨1, 1, none⟩ ⟨2, 2, none⟩ (by decide)
     (by decide)⟩

/-- Claim C6: with a queue holding three accepted samples `a`, `b`, `c` in
that order and a sink that succeeds on each of them, one flush calls the sink
with `a`, then `b`, then `c`, and leaves the queue empty. -/
theorem flushQueue_fifo_c6 :
    ∀ (sink : LocationPayload → SinkResult) (last : Option LocationData)
      (a b c : LocationData),
      sink (toPayload a) = SinkResult.ok →
      sink (toPayload b) = SinkResult.ok →
      sink (toPayload c) = SinkResult.ok →
      flushQueue sink ⟨last, [a, b, c], false⟩ =
        (⟨some c, [], false⟩,
         [⟨a, toPayload a, SinkResult.ok⟩,
          ⟨b, toPayload b, SinkResult.ok⟩,
          ⟨c, toPayload c, SinkResult.ok⟩]) := by
  intro sink last a b c ha hb hc
  simp [flushQueue, flushLoop, ha, hb, hc]

/-- Witness for C6 with an always-succeeding sink and three distinct
samples. -/
theorem flushQueue_fifo_c6_witness :
    ((fun _ => SinkResult.ok) (toPayload ⟨1, 1, none⟩) = SinkResult.ok) ∧
    ((fun _ => SinkResult.ok) (toPayload ⟨2, 2, none⟩) = SinkResult.ok) ∧
    ((fun _ => SinkResult.ok) (toPayload ⟨3, 3, none⟩) = SinkResult.ok) ∧
    flushQueue (fun _ => SinkResult.ok)
        ⟨none, [⟨1, 1, none⟩, ⟨2, 2, none⟩, ⟨3, 3, none⟩], false⟩ =
      (⟨some ⟨3, 3, none⟩, [], false⟩,
       [⟨⟨1, 1, none⟩, toPayload ⟨1, 1, none⟩, SinkResult.ok⟩,
        ⟨⟨2, 2, none⟩, toPayload ⟨2, 2, none⟩, SinkResult.ok⟩,
        ⟨⟨3, 3, none⟩, toPayload ⟨3, 3, none⟩, SinkResult.ok⟩]) :=
  ⟨rfl, rfl, rfl,
   flushQueue_fifo_c6 _ none ⟨1, 1, none⟩ ⟨2, 2, none⟩ ⟨3, 3, none⟩ rfl rfl
     rfl⟩

/-- Claim C7: `sendLocationNow x` on a state whose queue is `[a, b]` first
(before any delivery attempt) sets `lastSentLocation` to `x` unconditionally
— no accuracy or distance filtering is involved — and puts `x` at the front
of the queue, making it `[x, a, b]`; only then does it trigger
`flushQueue`. -/
theorem sendLocationNow_priority_c7 :
    ∀ (st : ServiceState) (x a b : LocationData),
      st.updateQueue = [a, b] →
      (sendLocationNowPre st x).updateQueue = [x, a, b] ∧
      (sendLocationNowPre st x).lastSentLocation = some x ∧
      ∀ sink, sendLocationNow sink st x =
        flushQueue sink (sendLocationNowPre st x) := by
  intro st x a b hq
  exact ⟨by simp [sendLocationNowPre, hq], rfl, fun sink => rfl⟩

/-- Witness for C7 on a concrete two-element queue. -/
theorem sendLocationNow_priority_c7_witness :
    (ServiceState.updateQueue
        ⟨none, [⟨1, 1, none⟩, ⟨2, 2, none⟩], false⟩ =
      [⟨1, 1, none⟩, ⟨2, 2, none⟩]) ∧
    ((sendLocationNowPre ⟨none, [⟨1, 1, none⟩, ⟨2, 2, none⟩], false⟩
        ⟨3, 3, none⟩).updateQueue =
      [⟨3, 3, none⟩, ⟨1, 1, none⟩, ⟨2, 2, none⟩]) ∧
    ((sendLocationNowPre ⟨none, [⟨1, 1, none⟩, ⟨2, 2, none⟩], false⟩
        ⟨3, 3, none⟩).lastSentLocation = some ⟨3, 3, none⟩) ∧
    (sendLocationNow (fun _ => SinkResult.ok)
        ⟨none, [⟨1, 1, none⟩, ⟨2, 2, none⟩], false⟩ ⟨3, 3, none⟩ =
      flushQueue (fun _ => SinkResult.ok)
        (sendLocationNowPre ⟨none, [⟨1, 1, none⟩, ⟨2, 2, none⟩], false⟩
          ⟨3, 3, none⟩)) := by
  refine ⟨rfl, ?_, ?_, ?_⟩
  · exact (sendLocationNow_priority_c7 _ ⟨3, 3, none⟩ ⟨1, 1, none⟩
      ⟨2, 2, none⟩ rfl).1
  · exact (sendLocationNow_priority_c7 _ ⟨3, 3, none⟩ ⟨1, 1, none⟩
      ⟨2, 2, none⟩ rfl).2.1
  · exact (sendLocationNow_priority_c7 _ ⟨3, 3, none⟩ ⟨1, 1, none⟩
      ⟨2, 2, none⟩ rfl).2.2 _

/-- Counterexample to claim C9 as stated: the claim says `requestPermissions`
returns true if and only if foreground permission is granted. But the source
wraps both awaited requests in one try/catch that returns false, so when the
foreground request resolves granted and the background request rejects
(throws), the call returns false even though foreground permission was
granted. -/
theorem requestPermissions_c9_counterexample :
    (requestPermissions ⟨none, [], false⟩
        (PermOutcome.ok PermStatus.granted) PermOutcome.threw).1.1 = false := by
  decide

/-- Claim C9 as amended: `requestPermissions` returns true iff the foreground
request resolved granted and the background request did not throw; the
foreground permission is requested first; the background permission is
requested exactly when the foreground one was granted (and a background
denial that merely resolves non-granted does not make the call false); the
service state is passed through untouched. -/
theorem requestPermissions_c9_amended :
    ∀ (st : ServiceState) (fg bg : PermOutcome),
      ((requestPermissions st fg bg).1.1 = true ↔
        fg = PermOutcome.ok PermStatus.granted ∧ bg ≠ PermOutcome.threw) ∧
      ((requestPermissions st fg bg).1.2.head? = some PermRequest.foreground) ∧
      (PermRequest.background ∈ (requestPermissions st fg bg).1.2 ↔
        fg = PermOutcome.ok PermStatus.granted) ∧
      ((requestPermissions st fg bg).2 = st) := by
  intro st fg bg
  cases fg with
  | threw => simp [requestPermissions]
  | ok s => cases s <;> cases bg <;> simp [requestPermissions]

/-- Claim C10: every payload `flushQueue` hands to the remote sink carries a
plain (non-null) accuracy number: latitude and longitude are the queued
sample's values unchanged, and the accuracy is the sample's accuracy with
null (and 0, which JavaScript `|| 0` also maps to 0) replaced by 0 — that
is, `Option.getD 0` of the stored accuracy. The second part says every sink
call of a flush run is of this shape, for a sample of the pre-flush queue;
`ApiClient.updateLocation` posts that record unchanged. -/
theorem flushQueue_payload_c10 :
    (∀ location : LocationData,
      (toPayload location).latitude = location.latitude ∧
      (toPayload location).longitude = location.longitude ∧
      (toPayload location).accuracy = location.accuracy.getD 0) ∧
    (∀ (sink : LocationPayload → SinkResult) (st : ServiceState)
      (call : SinkCall),
      call ∈ (flushQueue sink st).2 →
      call.payload = toPayload call.sample ∧
      call.sample ∈ st.updateQueue) := by
  constructor
  · intro location
    refine ⟨rfl, rfl, ?_⟩
    cases h : location.accuracy with
    | none => simp [toPayload, jsOrZero, h]
    | some a =>
      by_cases ha : a = 0
      · simp [toPayload, jsOrZero, h, ha]
      · simp [toPayload, jsOrZero, h, ha]
  · intro sink st call hmem
    unfold flushQueue at hmem
    by_cases h : st.isFlushing
    · simp [h] at hmem
    · simp only [h, Bool.false_eq_true, if_false] at hmem
      exact flushLoop_trace_calls sink st.updateQueue st.lastSentLocation
        call hmem

/-- Witness for C10: a concrete flush of a single sample with null accuracy,
whose (unique) sink call carries accuracy 0 and the original coordinates. -/
theorem flushQueue_payload_c10_witness :
    ((⟨⟨7, 8, none⟩, toPayload ⟨7, 8, none⟩, SinkResult.ok⟩ : SinkCall) ∈
      (flushQueue (fun _ => SinkResult.ok) ⟨none, [⟨7, 8, none⟩], false⟩).2) ∧
    (SinkCall.payload ⟨⟨7, 8, none⟩, toPayload ⟨7, 8, none⟩, SinkResult.ok⟩ =
      toPayload (SinkCall.sample
        ⟨⟨7, 8, none⟩, toPayload ⟨7, 8, none⟩, SinkResult.ok⟩) ∧
     SinkCall.sample ⟨⟨7, 8, none⟩, toPayload ⟨7, 8, none⟩, SinkResult.ok⟩ ∈
      ServiceState.updateQueue ⟨none, [⟨7, 8, none⟩], false⟩) ∧
    (toPayload ⟨7, 8, none⟩).accuracy = (none : Option ℚ).getD 0 :=
  ⟨by decide,
   flushQueue_payload_c10.2 (fun _ => SinkResult.ok)
     ⟨none, [⟨7, 8, none⟩], false⟩ _ (by decide),
   (flushQueue_payload_c10.1 ⟨7, 8, none⟩).2.2⟩

/-- Claim C8: the flush loop is mutual-exclusion guarded. First conjunct: a
`flushQueue` invocation while `isFlushing` is set returns immediately,
changing nothing and issuing no sink request. Second conjunct: every step of
the interleaved execution preserves the flag invariant (`isFlushing` clear
exactly when no loop is active), so every exit path — drain, 404 skip,
transient stop, or an exception unwinding through the `finally` block —
leaves the flag cleared. Third conjunct: a concrete interleaving in which a
sample is enqueued while the flush is awaiting the sink and a second
`flushQueue` call arrives mid-flight: the second call is a no-op and the
single in-progress loop drains both samples, ending idle with the flag
clear. -/
theorem flushQueue_reentrancy_c8 :
    (∀ st : SysState, st.isFlushing = true →
      sysStep st SysEvent.invokeFlush = (st, [])) ∧
    (∀ (st : SysState) (ev : SysEvent), FlushInv st →
      FlushInv (sysStep st ev).1) ∧
    (sysRun ⟨none, [⟨1, 1, none⟩], false, FlushTask.idle⟩
        [SysEvent.invokeFlush, SysEvent.runLoop, SysEvent.enqueue ⟨2, 2, none⟩,
         SysEvent.invokeFlush, SysEvent.sinkRespond SinkResult.ok,
         SysEvent.runLoop, SysEvent.sinkRespond SinkResult.ok,
         SysEvent.runLoop] =
      (⟨some ⟨2, 2, none⟩, [], false, FlushTask.idle⟩,
       [⟨1, 1, none⟩, ⟨2, 2, none⟩])) := by
  refine ⟨?_, ?_, by decide⟩
  · intro st h
    simp [sysStep, h]
  · intro st ev hinv
    unfold FlushInv at hinv ⊢
    cases ev with
    | invokeFlush =>
      by_cases h : st.isFlushing
      · simpa [sysStep, h] using hinv
      · simp [sysStep, h]
    | runLoop =>
      cases ht : st.task with
      | idle => simpa [sysStep, ht] using hinv
      | loopTop =>
        simp only [ht] at hinv
        cases hq : st.updateQueue with
        | nil => simp [sysStep, ht, hq]
        | cons l rest =>
          simp only [sysStep, ht, hq]
          simp at hinv ⊢
          simpa using hinv
      | awaitingSend l => simpa [sysStep, ht] using hinv
    | sinkRespond r =>
      cases ht : st.task with
      | idle => simpa [sysStep, ht] using hinv
      | loopTop => simpa [sysStep, ht] using hinv
      | awaitingSend l =>
        simp only [ht] at hinv
        simp at hinv
        cases r with
        | ok => simp [sysStep, ht, hinv]
        | err s =>
          by_cases h4 : s = some 404
          · simp [sysStep, ht, h4, hinv]
          · simp [sysStep, ht, h4]
    | enqueue l => simpa [sysStep] using hinv
    | sendNowPre l => simpa [sysStep] using hinv
    | abortFlush =>
      cases ht : st.task with
      | idle => simpa [sysStep, ht] using hinv
      | loopTop => simp [sysStep, ht]
      | awaitingSend l => simp [sysStep, ht]

/-- Witness for C8: the guard conjunct applied to a state with the flag set
(no state change, no sink request), and the invariant conjunct applied to an
idle state stepped by a flush invocation. -/
theorem flushQueue_reentrancy_c8_witness :
    (SysState.isFlushing ⟨none, [], true, FlushTask.loopTop⟩ = true ∧
     sysStep ⟨none, [], true, FlushTask.loopTop⟩ SysEvent.invokeFlush =
       (⟨none, [], true, FlushTask.loopTop⟩, [])) ∧
    (FlushInv ⟨none, [], false, FlushTask.idle⟩ ∧
     FlushInv
       (sysStep ⟨none, [], false, FlushTask.idle⟩ SysEvent.invokeFlush).1) :=
  ⟨⟨rfl, flushQueue_reentrancy_c8.1 ⟨none, [], true, FlushTask.loopTop⟩ rfl⟩,
   ⟨by decide,
    flushQueue_reentrancy_c8.2.1 ⟨none, [], false, FlushTask.idle⟩
      SysEvent.invokeFlush (by decide)⟩⟩

section DistanceFilterTheorems

open Classical

/-- The guard helper of the source agrees with the accept condition as the
specification phrases it (null history, or haversine distance at least 30
meters from the remembered sample). -/
theorem hasChanged_iff_specAccepts (st : ServiceState)
    (location : LocationData) :
    hasLocationChangedSignificantly st location ↔
      specAcceptsSample st.lastSentLocation location := by
  unfold hasLocationChangedSignificantly specAcceptsSample
  cases h : st.lastSentLocation with
  | none => simp
  | some prev =>
    have h30 : ((MIN_DISTANCE_METERS : ℚ) : ℝ) = (30 : ℝ) := by
      norm_num [MIN_DISTANCE_METERS]
    rw [h30]
    constructor
    · intro hd
      exact Or.inr ⟨prev, rfl, hd⟩
    · rintro (hnone | ⟨p, hp, hd⟩)
      · exact absurd hnone (by simp)
      · cases hp
        exact hd

/-- Claim C1: `processLocation` accepts a sample — appends it to the queue
and flushes — exactly when `lastSentLocation` is null or the haversine
distance (Earth radius 6371000 m, `calculateDistance` of the source) from
the remembered sample is at least 30 meters; a rejected sample leaves the
whole state unchanged and performs no sink call. -/
theorem processLocation_distance_filter_c1 :
    ∀ (sink : LocationPayload → SinkResult) (st : ServiceState)
      (location : LocationData),
      processLocation sink st location =
        if specAcceptsSample st.lastSentLocation location then
          flushQueue sink
            { st with updateQueue := st.updateQueue ++ [location] }
        else (st, []) := by
  intro sink st location
  unfold processLocation
  by_cases hacc : specAcceptsSample st.lastSentLocation location
  · rw [if_pos hacc, if_neg]
    rintro ⟨_, hnc⟩
    exact hnc ((hasChanged_iff_specAccepts st location).mpr hacc)
  · rw [if_neg hacc, if_pos]
    constructor
    · cases h : st.lastSentLocation with
      | none => exact absurd (Or.inl h) hacc
      | some prev => simp [h]
    · intro hch
      exact hacc ((hasChanged_iff_specAccepts st location).mp hch)

/-- Counterexample to claim C2 as stated. The claim says `lastSentLocation`
(the spec's `lastAcceptedSample`) changes exactly at the moment a sample is
accepted into the queue and that no delivery attempt updates it. In the
source it is the other way around: first conjunct — a bare `flushQueue` run
(no acceptance at all) successfully delivering a queued sample sets
`lastSentLocation`; second and third conjuncts — `processLocation` accepts a
sample into the queue (the sink fails, so it stays there), yet
`lastSentLocation` remains null. -/
theorem lastSent_update_c2_counterexample :
    ((flushQueue (fun _ => SinkResult.ok)
        ⟨none, [⟨1, 2, none⟩], false⟩).1.lastSentLocation =
      some ⟨1, 2, none⟩) ∧
    ((processLocation (fun _ => SinkResult.err none) ⟨none, [], false⟩
        ⟨1, 2, none⟩).1.updateQueue = [⟨1, 2, none⟩]) ∧
    ((processLocation (fun _ => SinkResult.err none) ⟨none, [], false⟩
        ⟨1, 2, none⟩).1.lastSentLocation = none) := by
  refine ⟨by decide, ?_, ?_⟩ <;>
    simp [processLocation, flushQueue, flushLoop, trimQueue]

/-- Claim C2 as amended: `lastSentLocation` is updated by successful
deliveries and by `sendLocationNow`, and by nothing else. After any
`flushQueue` or `processLocation` run it equals the last sample the run
delivered successfully, or its previous value when no delivery succeeded
(in particular, acceptance into the queue does not by itself update it, and
failed attempts — 404 or transient — never update it); the synchronous
prefix of `sendLocationNow` sets it to its argument unconditionally. -/
theorem lastSent_update_c2_amended :
    ∀ (sink : LocationPayload → SinkResult) (st : ServiceState),
      ((flushQueue sink st).1.lastSentLocation =
        (okDeliveries (flushQueue sink st).2).foldl (fun _ l => some l)
          st.lastSentLocation) ∧
      (∀ location,
        (processLocation sink st location).1.lastSentLocation =
          (okDeliveries (processLocation sink st location).2).foldl
            (fun _ l => some l) st.lastSentLocation) ∧
      (∀ location,
        (sendLocationNowPre st location).lastSentLocation = some location) := by
  intro sink st
  refine ⟨flushQueue_last_eq sink st, ?_, fun _ => rfl⟩
  intro location
  unfold processLocation
  by_cases hg : st.lastSentLocation.isSome = true ∧
      ¬ hasLocationChangedSignificantly st location
  · rw [if_pos hg]
    simp [okDeliveries]
  · rw [if_neg hg]
    exact flushQueue_last_eq sink
      { st with updateQueue := st.updateQueue ++ [location] }

/-- Counterexample to claim C3 as stated. The claim says a sample whose
accuracy exceeds the threshold never reaches the queue, whether it arrives
via the subscription callback or via the initial fetch of `startTracking`.
But `startTracking` passes its initial sample directly to `processLocation`,
bypassing the accuracy check of `handleLocationUpdate`: a first-ever sample
with accuracy 100 (far above the threshold of 5) is accepted and — the sink
failing — sits in the queue. -/
theorem accuracy_filter_c3_counterexample :
    ACCURACY_THRESHOLD < (100 : ℚ) ∧
    (startTrackingInitialSample (fun _ => SinkResult.err none)
        ⟨none, [], false⟩ ⟨0, 0, some 100⟩).1.updateQueue =
      [⟨0, 0, some 100⟩] := by
  refine ⟨by decide, ?_⟩
  simp [startTrackingInitialSample, processLocation, flushQueue, flushLoop,
    trimQueue]

/-- Claim C3 as amended: the accuracy filter protects the subscription path —
`handleLocationUpdate` drops any sample whose accuracy is present and above
`ACCURACY_THRESHOLD` before it can reach the queue, no matter its distance
from `lastSentLocation` — but the initial fetch of `startTracking` goes
straight to `processLocation` and is not accuracy-filtered (see the
counterexample). -/
theorem accuracy_filter_c3_amended :
    ∀ (sink : LocationPayload → SinkResult) (st : ServiceState)
      (location : LocationData) (a : ℚ),
      location.accuracy = some a → ACCURACY_THRESHOLD < a →
      handleLocationUpdate sink st location = (st, []) := by
  intro sink st location a hacc hgt
  have ha0 : a ≠ 0 := by
    intro h
    rw [h] at hgt
    norm_num [ACCURACY_THRESHOLD] at hgt
  unfold handleLocationUpdate
  rw [hacc]
  simp only [ha0, hgt, and_self, ne_eq, not_false_eq_true, if_true]

/-- Witness for C3 (amended): a subscription sample with accuracy 100 is
dropped with the state untouched and no sink call. -/
theorem accuracy_filter_c3_amended_witness :
    (LocationData.accuracy ⟨4, 4, some 100⟩ = some 100) ∧
    ACCURACY_THRESHOLD < (100 : ℚ) ∧
    handleLocationUpdate (fun _ => SinkResult.ok) ⟨none, [], false⟩
        ⟨4, 4, some 100⟩ =
      (⟨none, [], false⟩, []) :=
  ⟨rfl, by decide,
   accuracy_filter_c3_amended (fun _ => SinkResult.ok) ⟨none, [], false⟩
     ⟨4, 4, some 100⟩ 100 rfl (by decide)⟩

end DistanceFilterTheorems

end Caravan

